import Mathlib

/-!
Shallow embedding of src/fishing_alert.py.

Timestamps are modelled as integer minutes since an arbitrary epoch (the
Python code works with timezone-aware datetimes; all arithmetic it performs
on them is addition/subtraction of fixed durations and comparisons, which
minutes capture exactly; datetime.date() becomes floor-division by 1440).
Environmental quantities (floats in Python used only through comparisons
with decimal constants, one multiplication by 1.94384 and one subtraction)
are modelled as rationals, which the comparisons performed agree with.
-/

namespace FishingAlert

/-- Scoring helper bass_sst_score (src/fishing_alert.py lines 31-34). -/
def bass_sst_score (c : ℚ) : ℤ :=
  if 13.0 ≤ c then 2
  else if 12.0 ≤ c ∧ c < 13.0 then 1
  else 0

/-- Scoring helper cod_sst_score (lines 36-39). -/
def cod_sst_score (c : ℚ) : ℤ :=
  if 8.0 ≤ c ∧ c ≤ 10.5 then 2
  else if 11.0 ≤ c ∧ c ≤ 12.5 then 1
  else 0

/-- Scoring helper wind_swell_ok (lines 41-42). -/
def wind_swell_ok (wind_kt swell_m : ℚ) : ℤ :=
  if swell_m ≤ 1.6 ∧ wind_kt ≤ 18 then 2
  else if swell_m ≤ 2.2 ∧ wind_kt ≤ 24 then 1
  else 0

/-- Scoring helper pressure_trend_score (lines 44-45). -/
def pressure_trend_score (trend_hpa : ℚ) : ℤ :=
  if trend_hpa < -1.0 then 2
  else if |trend_hpa| ≤ 1.0 then 1
  else 0

/-- Band label from a composite score, label_from_score (lines 47-51). -/
def label_from_score (x : ℤ) : String :=
  if 10 ≤ x then "GREEN"
  else if 7 ≤ x ∧ x ≤ 9 then "AMBER"
  else if 4 ≤ x ∧ x ≤ 6 then "AMBER-"
  else "RED"

/-- Interval overlap test, overlaps (lines 109-110): half-open semantics. -/
def overlaps (a_start a_end b_start b_end : ℤ) : Bool :=
  decide (max a_start b_start < min a_end b_end)

/-- Flood windows from high tides, pick_flood_windows (lines 112-113):
two hours (120 minutes) before each high tide. -/
def pick_flood_windows (high_tides : List ℤ) : List (ℤ × ℤ) :=
  high_tides.map (fun ht => (ht - 120, ht))

/-- Claim C9: every high-tide timestamp t yields the flood window
(t - 2h, t); a high tide at 14:00 (minute 840) yields (12:00, 14:00) =
(720, 840). -/
theorem C9_flood_window :
    (∀ (hts : List ℤ) (s e : ℤ),
      (s, e) ∈ pick_flood_windows hts ↔ ∃ t, t ∈ hts ∧ s = t - 120 ∧ e = t) ∧
    pick_flood_windows [840] = [(720, 840)] := by
  refine ⟨fun hts s e => ?_, rfl⟩
  simp only [pick_flood_windows, List.mem_map, Prod.mk.injEq]
  constructor
  · rintro ⟨t, ht, hs, he⟩
    exact ⟨t, ht, hs.symm, he.symm⟩
  · rintro ⟨t, ht, hs, he⟩
    exact ⟨t, ht, hs.symm, he.symm⟩

/-- Claim C10: overlaps holds iff max of the starts is strictly below the
min of the ends (half-open intervals; touching endpoints do not overlap);
with the two concrete instances 12:00-14:00 vs 13:30-14:30 (true) and
12:00-14:00 vs 14:00-15:00 (false). -/
theorem C10_overlaps_iff :
    (∀ a_start a_end b_start b_end : ℤ,
      overlaps a_start a_end b_start b_end = true ↔
        max a_start b_start < min a_end b_end) ∧
    overlaps 720 840 810 870 = true ∧
    overlaps 720 840 840 900 = false := by
  refine ⟨fun a b c d => ?_, by decide, by decide⟩
  simp [overlaps]

/-- Dawn and dusk twilight intervals for one day, as returned by
civil_twilight_for_day (lines 90-106): sunrise/sunset plus-minus 30 min. -/
structure Twilight where
  dawnS : ℤ
  dawnE : ℤ
  duskS : ℤ
  duskE : ℤ
deriving DecidableEq

/-- A candidate window as appended in the main loop (line 230):
the flood interval together with a twilight label. -/
structure Candidate where
  start : ℤ
  stop : ℤ
  label : String
deriving DecidableEq

/-- Labelling logic of the main loop (lines 221-225):
label = None; if the flood overlaps dawn, "dawn"; if it overlaps dusk,
it becomes "dusk" only when no label was set yet. -/
def label_for (fw_start fw_end : ℤ) (tw : Twilight) : Option String :=
  let l1 : Option String :=
    if overlaps fw_start fw_end tw.dawnS tw.dawnE then some "dawn" else none
  if overlaps fw_start fw_end tw.duskS tw.duskE then
    match l1 with
    | none => some "dusk"
    | some l => some l
  else l1

/-- Candidate construction for one day of the main loop (lines 218-230):
skip floods whose start date (floor-division of minutes by 1440) is not the
day, skip unlabeled floods, skip floods fully elapsed (end < now) or
starting more than 24 h after now; otherwise append the flood interval with
its label. -/
def build_day_windows (now day : ℤ) (floods : List (ℤ × ℤ)) (tw : Twilight) :
    List Candidate :=
  floods.filterMap (fun fw =>
    if Int.fdiv fw.1 1440 ≠ day then none
    else
      match label_for fw.1 fw.2 tw with
      | none => none
      | some l =>
          if fw.2 < now ∨ fw.1 > now + 1440 then none
          else some ⟨fw.1, fw.2, l⟩)

/-- Claim C2 counterexample: with a flood window 12:00-14:00 (minutes
720-840) and a dawn twilight 13:30-14:30 (minutes 810-870), the generator
emits the candidate (720, 840), the full flood interval, whereas the
intersection of the two intervals starts at max 720 810 = 810; so the
emitted interval is not the overlap. -/
theorem C2_counterexample :
    build_day_windows 700 0 [(720, 840)] ⟨810, 870, 900, 960⟩ =
      [⟨720, 840, "dawn"⟩] ∧
    ¬((720 : ℤ) = max 720 810 ∧ (840 : ℤ) = min 840 870) := by
  exact ⟨by decide, by decide⟩

/-- Claim C2 (amended): every candidate emitted by the generator carries
the full flood interval of some flood window in the input, labelled by
label_for; the interval is not intersected with the twilight window. -/
theorem C2_full_flood_interval (now day : ℤ) (floods : List (ℤ × ℤ))
    (tw : Twilight) (c : Candidate) (hc : c ∈ build_day_windows now day floods tw) :
    ∃ fw, fw ∈ floods ∧ c.start = fw.1 ∧ c.stop = fw.2 ∧
      label_for fw.1 fw.2 tw = some c.label := by
  simp only [build_day_windows, List.mem_filterMap] at hc
  obtain ⟨fw, hfw, heq⟩ := hc
  refine ⟨fw, hfw, ?_⟩
  by_cases hd : Int.fdiv fw.1 1440 ≠ day
  · simp [hd] at heq
  · simp only [hd, if_false] at heq
    cases hl : label_for fw.1 fw.2 tw with
    | none => rw [hl] at heq; simp at heq
    | some l =>
        rw [hl] at heq
        by_cases ht : fw.2 < now ∨ fw.1 > now + 1440
        · simp [ht] at heq
        · simp only [ht, if_false, Option.some.injEq] at heq
          subst heq
          exact ⟨rfl, rfl, rfl⟩

/-- Claim C2 witness: the amended theorem applied at the counterexample
input, exhibiting the flood interval carried in full. -/
theorem C2_full_flood_interval_witness :
    ∃ fw, fw ∈ [((720 : ℤ), (840 : ℤ))] ∧ (720 : ℤ) = fw.1 ∧ (840 : ℤ) = fw.2 ∧
      label_for fw.1 fw.2 ⟨810, 870, 900, 960⟩ = some "dawn" :=
  C2_full_flood_interval 700 0 [(720, 840)] ⟨810, 870, 900, 960⟩
    ⟨720, 840, "dawn"⟩ (by decide)

/-- Claim C8: a flood window overlapping both dawn and dusk twilight
windows is labelled "dawn"; one overlapping only dusk is labelled "dusk";
one overlapping neither yields no candidate at all. -/
theorem C8_twilight_label_precedence (fw_start fw_end now day : ℤ)
    (tw : Twilight) :
    (overlaps fw_start fw_end tw.dawnS tw.dawnE = true →
      overlaps fw_start fw_end tw.duskS tw.duskE = true →
      label_for fw_start fw_end tw = some "dawn") ∧
    (overlaps fw_start fw_end tw.dawnS tw.dawnE = false →
      overlaps fw_start fw_end tw.duskS tw.duskE = true →
      label_for fw_start fw_end tw = some "dusk") ∧
    (overlaps fw_start fw_end tw.dawnS tw.dawnE = false →
      overlaps fw_start fw_end tw.duskS tw.duskE = false →
      build_day_windows now day [(fw_start, fw_end)] tw = []) := by
  refine ⟨fun h1 h2 => ?_, fun h1 h2 => ?_, fun h1 h2 => ?_⟩
  · simp [label_for, h1, h2]
  · simp [label_for, h1, h2]
  · have : label_for fw_start fw_end tw = none := by simp [label_for, h1, h2]
    by_cases hd : Int.fdiv fw_start 1440 ≠ day
    · simp [build_day_windows, hd]
    · simp [build_day_windows, hd, this]

/-- Claim C8 witness: the three labelling cases at concrete inputs — flood
0-100 against dawn 0-50 / dusk 50-100 (both overlap, labelled dawn), dawn
200-300 / dusk 50-100 (only dusk, labelled dusk), dawn 200-300 / dusk
400-500 (neither, no candidate). -/
theorem C8_twilight_label_precedence_witness :
    label_for 0 100 ⟨0, 50, 50, 100⟩ = some "dawn" ∧
    label_for 0 100 ⟨200, 300, 50, 100⟩ = some "dusk" ∧
    build_day_windows 0 0 [(0, 100)] ⟨200, 300, 400, 500⟩ = [] :=
  ⟨(C8_twilight_label_precedence 0 100 0 0 ⟨0, 50, 50, 100⟩).1
      (by decide) (by decide),
   (C8_twilight_label_precedence 0 100 0 0 ⟨200, 300, 50, 100⟩).2.1
      (by decide) (by decide),
   (C8_twilight_label_precedence 0 100 0 0 ⟨200, 300, 400, 500⟩).2.2
      (by decide) (by decide)⟩

/-- The parallel hourly arrays unpacked from the forecast response
(lines 180-188): timestamps plus one series per quantity. A failed fetch
yields empty arrays for all of them. -/
structure Hourly where
  hours : List ℤ
  sst : List ℚ
  wind : List ℚ
  wind_dir : List ℚ
  waveh : List ℚ
  wavep : List ℚ
deriving DecidableEq

/-- A scored window, the record appended at lines 249-254. -/
structure Scored where
  start : ℤ
  stop : ℤ
  label : String
  sst : ℚ
  wind_kt : ℚ
  wind_dir : ℚ
  wave_m : ℚ
  wavep : ℚ
  bass : ℤ
  cod : ℤ
deriving DecidableEq

/-- The index selection at line 236:
idx = min(range(len(hours)), key = lambda i: abs(hours[i] - mid)).
Python's min keeps the first index attaining the minimal distance and
raises ValueError when the range is empty, modelled here as none. -/
def nearest_idx (hours : List ℤ) (mid : ℚ) : Option ℕ :=
  (List.range hours.length).foldl
    (fun acc i =>
      match acc with
      | none => some i
      | some j =>
          if |(hours.getD i 0 : ℚ) - mid| < |(hours.getD j 0 : ℚ) - mid| then
            some i
          else some j)
    none

/-- The scoring loop body (lines 234-254) for one candidate window:
midpoint sampling with per-series defaults when a series is shorter than
the selected index (sst 12.0, wind 6.0, wind direction 225, wave 1.2,
wave period 9.0), knots conversion, and the two composite scores. When
the hour series itself is empty, the index computation in the Python
raises ValueError, modelled as none. -/
def score_window (h : Hourly) (p_trend : ℚ) (w : Candidate) : Option Scored :=
  let mid : ℚ := (w.start : ℚ) + ((w.stop : ℚ) - (w.start : ℚ)) / 2
  match nearest_idx h.hours mid with
  | none => none
  | some idx =>
      let val_sst : ℚ := if idx < h.sst.length then h.sst.getD idx 0 else 12.0
      let val_wind : ℚ := if idx < h.wind.length then h.wind.getD idx 0 else 6.0
      let val_wind_dir : ℚ :=
        if idx < h.wind_dir.length then h.wind_dir.getD idx 0 else 225
      let val_wave : ℚ := if idx < h.waveh.length then h.waveh.getD idx 0 else 1.2
      let val_wavep : ℚ := if idx < h.wavep.length then h.wavep.getD idx 0 else 9.0
      let wind_kt : ℚ := val_wind * 1.94384
      let b : ℤ := bass_sst_score val_sst + 2 + wind_swell_ok wind_kt val_wave +
        pressure_trend_score p_trend + 1
      let c : ℤ := cod_sst_score val_sst +
        (if 0.8 ≤ val_wave ∧ val_wave ≤ 1.8 then 2
         else if val_wave > 1.8 then 1 else 0) +
        2 + pressure_trend_score p_trend + 1
      some ⟨w.start, w.stop, w.label, val_sst, wind_kt, val_wind_dir, val_wave,
        val_wavep, b, c⟩

/-- The scoring loop over all candidate windows (lines 233-254); an
exception while scoring any window aborts the run, so the whole result
is none as soon as one window fails to score. -/
def score_all (h : Hourly) (p_trend : ℚ) : List Candidate → Option (List Scored)
  | [] => some []
  | w :: ws =>
      match score_window h p_trend w, score_all h p_trend ws with
      | some s, some l => some (s :: l)
      | _, _ => none

/-- Claim C1: with the hourly series entirely empty, scoring a candidate
window does not produce a scored window at all — the index computation
(min over an empty range) raises ValueError, modelled as none — instead of
substituting the neutral defaults as the claim states. -/
theorem C1_empty_series_crashes :
    score_window ⟨[], [], [], [], [], []⟩ 0 ⟨720, 840, "dawn"⟩ = none ∧
    score_all ⟨[], [], [], [], [], []⟩ 0 [⟨720, 840, "dawn"⟩] = none := by
  exact ⟨rfl, rfl⟩

/-- best_score (line 260): the better of the two species scores. -/
def best_score (r : Scored) : ℤ := max r.bass r.cod

/-- The GREEN band filter (line 261). -/
def greens (scored : List Scored) : List Scored :=
  scored.filter (fun r => decide (10 ≤ best_score r))

/-- The AMBER band filter (line 262). -/
def ambers (scored : List Scored) : List Scored :=
  scored.filter (fun r => decide (7 ≤ best_score r ∧ best_score r ≤ 9))

/-- The sort order of pick_best (line 267): ascending in the key
(-best_score r, r.start), i.e. best score descending then start
ascending. -/
def sort_le (a b : Scored) : Bool :=
  decide (best_score b < best_score a ∨
    (best_score a = best_score b ∧ a.start ≤ b.start))

/-- pick_best (lines 264-268): None on an empty list, else the head of
the list sorted by (-best_score, start). -/
def pick_best (lst : List Scored) : Option Scored :=
  (lst.mergeSort sort_le).head?

theorem sort_le_trans (a b c : Scored) (hab : sort_le a b) (hbc : sort_le b c) :
    sort_le a c := by
  simp only [sort_le, decide_eq_true_eq] at *
  omega

theorem sort_le_total (a b : Scored) : sort_le a b || sort_le b a := by
  simp only [sort_le, Bool.or_eq_true, decide_eq_true_eq]
  omega

theorem bass_sst_score_bounds (c : ℚ) :
    0 ≤ bass_sst_score c ∧ bass_sst_score c ≤ 2 := by
  unfold bass_sst_score; split_ifs <;> norm_num

theorem cod_sst_score_bounds (c : ℚ) :
    0 ≤ cod_sst_score c ∧ cod_sst_score c ≤ 2 := by
  unfold cod_sst_score; split_ifs <;> norm_num

theorem wind_swell_ok_bounds (k s : ℚ) :
    0 ≤ wind_swell_ok k s ∧ wind_swell_ok k s ≤ 2 := by
  unfold wind_swell_ok; split_ifs <;> norm_num

theorem pressure_trend_score_bounds (t : ℚ) :
    0 ≤ pressure_trend_score t ∧ pressure_trend_score t ≤ 2 := by
  unfold pressure_trend_score; split_ifs <;> norm_num

/-- Any scored window's fields satisfy the two composite-score formulas of
lines 244-247, expressed over its own sampled values. -/
theorem score_window_fields (h : Hourly) (p : ℚ) (w : Candidate) (s : Scored)
    (hs : score_window h p w = some s) :
    s.bass = bass_sst_score s.sst + 2 + wind_swell_ok s.wind_kt s.wave_m +
      pressure_trend_score p + 1 ∧
    s.cod = cod_sst_score s.sst +
      (if 0.8 ≤ s.wave_m ∧ s.wave_m ≤ 1.8 then 2
       else if s.wave_m > 1.8 then 1 else 0) +
      2 + pressure_trend_score p + 1 := by
  simp only [score_window] at hs
  cases heq : nearest_idx h.hours
      ((w.start : ℚ) + ((w.stop : ℚ) - (w.start : ℚ)) / 2) with
  | none => rw [heq] at hs; simp at hs
  | some idx =>
      rw [heq] at hs
      simp only [Option.some.injEq] at hs
      subst hs
      exact ⟨rfl, rfl⟩

/-- Bounds on both composite scores of any scored window. -/
theorem score_window_bounds (h : Hourly) (p : ℚ) (w : Candidate) (s : Scored)
    (hs : score_window h p w = some s) :
    (3 ≤ s.bass ∧ s.bass ≤ 9) ∧ (3 ≤ s.cod ∧ s.cod ≤ 9) := by
  obtain ⟨hb, hc⟩ := score_window_fields h p w s hs
  have h1 := bass_sst_score_bounds s.sst
  have h2 := cod_sst_score_bounds s.sst
  have h3 := wind_swell_ok_bounds s.wind_kt s.wave_m
  have h4 := pressure_trend_score_bounds p
  have h5 : 0 ≤ (if 0.8 ≤ s.wave_m ∧ s.wave_m ≤ 1.8 then (2 : ℤ)
      else if s.wave_m > 1.8 then 1 else 0) ∧
      (if 0.8 ≤ s.wave_m ∧ s.wave_m ≤ 1.8 then (2 : ℤ)
      else if s.wave_m > 1.8 then 1 else 0) ≤ 2 := by
    split_ifs <;> norm_num
  omega

/-- Every element of a successful scoring run is the score of some
candidate window. -/
theorem score_all_mem (h : Hourly) (p : ℚ) :
    ∀ (ws : List Candidate) (l : List Scored), score_all h p ws = some l →
      ∀ s ∈ l, ∃ w, score_window h p w = some s := by
  intro ws
  induction ws with
  | nil =>
      intro l hl s hsl
      simp only [score_all, Option.some.injEq] at hl
      subst hl
      simp at hsl
  | cons w ws ih =>
      intro l hl s hsl
      simp only [score_all] at hl
      cases hw : score_window h p w with
      | none => rw [hw] at hl; simp at hl
      | some s0 =>
          rw [hw] at hl
          cases hrest : score_all h p ws with
          | none => rw [hrest] at hl; simp at hl
          | some l0 =>
              rw [hrest] at hl
              simp only [Option.some.injEq] at hl
              subst hl
              rcases List.mem_cons.mp hsl with h1 | h1
              · subst h1; exact ⟨w, hw⟩
              · exact ih l0 hrest s h1

/-- Claim C3: both composite scores of every scored window lie in [3, 9],
so best_score never reaches 10, the GREEN filter is always empty and the
GREEN dispatch branch can never fire (pick_best of the GREEN band is
always none). -/
theorem C3_green_band_unreachable :
    (∀ (h : Hourly) (p : ℚ) (w : Candidate) (s : Scored),
      score_window h p w = some s →
        (3 ≤ s.bass ∧ s.bass ≤ 9) ∧ (3 ≤ s.cod ∧ s.cod ≤ 9) ∧
        best_score s ≤ 9) ∧
    (∀ (h : Hourly) (p : ℚ) (ws : List Candidate) (l : List Scored),
      score_all h p ws = some l →
        greens l = [] ∧ pick_best (greens l) = none) := by
  constructor
  · intro h p w s hs
    obtain ⟨hb, hc⟩ := score_window_bounds h p w s hs
    refine ⟨hb, hc, ?_⟩
    simp only [best_score]
    omega
  · intro h p ws l hl
    have hg : greens l = [] := by
      simp only [greens, List.filter_eq_nil_iff, decide_eq_true_eq]
      intro s hsl
      obtain ⟨w, hw⟩ := score_all_mem h p ws l hl s hsl
      obtain ⟨hb, hc⟩ := score_window_bounds h p w s hw
      simp only [best_score]
      omega
    exact ⟨hg, by rw [hg]; simp [pick_best]⟩

/-- Concrete evaluation of score_window on a single hourly sample
(sst 13.5, wind 5 m/s, wave 1.0 m, pressure trend -1.5): the bass
composite is 2+2+2+2+1 = 9 and the cod composite 0+2+2+2+1 = 7. -/
theorem score_window_concrete :
    score_window ⟨[780], [13.5], [5], [225], [1.0], [9.0]⟩ (-1.5)
        ⟨720, 840, "dawn"⟩ =
      some ⟨720, 840, "dawn", 13.5, 5 * 1.94384, 225, 1.0, 9.0, 9, 7⟩ := by
  simp only [score_window]
  norm_num [nearest_idx, List.range_succ, List.range_zero, bass_sst_score,
    cod_sst_score, wind_swell_ok, pressure_trend_score]

/-- Claim C3 witness: the bounds applied to the window scored from a
single hourly sample (sst 13.5, wind 5 m/s, wave 1.0 m) with pressure
trend -1.5, and the empty GREEN band of the resulting run. -/
theorem C3_green_band_unreachable_witness :
    ((3 ≤ (9 : ℤ) ∧ (9 : ℤ) ≤ 9) ∧ (3 ≤ (7 : ℤ) ∧ (7 : ℤ) ≤ 9) ∧
      best_score ⟨720, 840, "dawn", 13.5, 5 * 1.94384, 225, 1.0, 9.0, 9, 7⟩ ≤ 9) ∧
    (greens [⟨720, 840, "dawn", 13.5, 5 * 1.94384, 225, 1.0, 9.0, 9, 7⟩] = [] ∧
      pick_best (greens
        [⟨720, 840, "dawn", 13.5, 5 * 1.94384, 225, 1.0, 9.0, 9, 7⟩]) = none) :=
  ⟨C3_green_band_unreachable.1 ⟨[780], [13.5], [5], [225], [1.0], [9.0]⟩ (-1.5)
      ⟨720, 840, "dawn"⟩ ⟨720, 840, "dawn", 13.5, 5 * 1.94384, 225, 1.0, 9.0, 9, 7⟩
      score_window_concrete,
   C3_green_band_unreachable.2 ⟨[780], [13.5], [5], [225], [1.0], [9.0]⟩ (-1.5)
      [⟨720, 840, "dawn"⟩]
      [⟨720, 840, "dawn", 13.5, 5 * 1.94384, 225, 1.0, 9.0, 9, 7⟩]
      (by simp only [score_all, score_window_concrete])⟩

/-- Claim C6: every scored window's bass composite is temperature score
+ 2 (tide bonus) + wind/swell score + pressure-trend score + 1 (daylight
bonus); at sst 13.5, wind 5 m/s, wave 1.0 m and pressure trend -1.5 the
composite is 9, whose band label is AMBER and not GREEN. -/
theorem C6_bass_composite :
    (∀ (h : Hourly) (p : ℚ) (w : Candidate) (s : Scored),
      score_window h p w = some s →
        s.bass = bass_sst_score s.sst + 2 + wind_swell_ok s.wind_kt s.wave_m +
          pressure_trend_score p + 1) ∧
    (∃ s, score_window ⟨[780], [13.5], [5], [225], [1.0], [9.0]⟩ (-1.5)
        ⟨720, 840, "dawn"⟩ = some s ∧
      s.bass = 9 ∧ label_from_score s.bass = "AMBER" ∧
      label_from_score s.bass ≠ "GREEN") := by
  constructor
  · intro h p w s hs
    exact (score_window_fields h p w s hs).1
  · exact ⟨⟨720, 840, "dawn", 13.5, 5 * 1.94384, 225, 1.0, 9.0, 9, 7⟩,
      score_window_concrete, rfl, by decide, by decide⟩

/-- Claim C6 witness: the composite formula applied to the concretely
scored window of score_window_concrete. -/
theorem C6_bass_composite_witness :
    (9 : ℤ) = bass_sst_score 13.5 + 2 + wind_swell_ok (5 * 1.94384) 1.0 +
      pressure_trend_score (-1.5) + 1 :=
  C6_bass_composite.1 ⟨[780], [13.5], [5], [225], [1.0], [9.0]⟩ (-1.5)
    ⟨720, 840, "dawn"⟩ ⟨720, 840, "dawn", 13.5, 5 * 1.94384, 225, 1.0, 9.0, 9, 7⟩
    score_window_concrete

/-- Claim C7: pick_best of the empty list is none (no error); of a
non-empty list it is some window of the list whose best_score is maximal,
and minimal in start among those attaining that score. -/
theorem C7_pick_best_selects_max :
    pick_best [] = none ∧
    (∀ lst : List Scored, lst ≠ [] → (pick_best lst).isSome = true) ∧
    (∀ (lst : List Scored) (r : Scored), pick_best lst = some r →
      r ∈ lst ∧ ∀ s ∈ lst, best_score s ≤ best_score r ∧
        (best_score s = best_score r → r.start ≤ s.start)) := by
  refine ⟨by simp [pick_best], ?_, ?_⟩
  · intro lst hne
    simp only [pick_best]
    cases hm : lst.mergeSort sort_le with
    | nil =>
        have hp := List.mergeSort_perm lst sort_le
        rw [hm] at hp
        exact absurd hp.symm.eq_nil hne
    | cons a t => simp
  · intro lst r hr
    simp only [pick_best] at hr
    cases hm : lst.mergeSort sort_le with
    | nil => rw [hm] at hr; simp at hr
    | cons a t =>
        rw [hm] at hr
        simp only [List.head?_cons, Option.some.injEq] at hr
        subst hr
        have hsorted := List.sorted_mergeSort sort_le_trans sort_le_total lst
        rw [hm] at hsorted
        constructor
        · have ha : a ∈ lst.mergeSort sort_le := by
            rw [hm]; exact List.mem_cons_self a t
          exact List.mem_mergeSort.mp ha
        · intro s hs
          have hs2 : s ∈ lst.mergeSort sort_le := List.mem_mergeSort.mpr hs
          rw [hm] at hs2
          rcases List.mem_cons.mp hs2 with hsa | hst
          · subst hsa; exact ⟨le_refl _, fun _ => le_refl _⟩
          · have hrel := List.rel_of_pairwise_cons hsorted hst
            simp only [sort_le, decide_eq_true_eq] at hrel
            constructor
            · rcases hrel with hlt | ⟨heq, _⟩
              · exact le_of_lt hlt
              · exact le_of_eq heq.symm
            · intro heq
              rcases hrel with hlt | ⟨_, hle⟩
              · omega
              · exact hle

/-- Claim C7 witness: pick_best applied to a concrete one-element band
returns that element, which dominates every member of the band. -/
theorem C7_pick_best_selects_max_witness :
    ((pick_best [⟨0, 10, "dawn", 12, 6, 225, 1, 9, 5, 4⟩]).isSome = true) ∧
    (⟨0, 10, "dawn", 12, 6, 225, 1, 9, 5, 4⟩ ∈
        [(⟨0, 10, "dawn", 12, 6, 225, 1, 9, 5, 4⟩ : Scored)] ∧
      ∀ s ∈ [(⟨0, 10, "dawn", 12, 6, 225, 1, 9, 5, 4⟩ : Scored)],
        best_score s ≤ best_score ⟨0, 10, "dawn", 12, 6, 225, 1, 9, 5, 4⟩ ∧
          (best_score s = best_score ⟨0, 10, "dawn", 12, 6, 225, 1, 9, 5, 4⟩ →
            Scored.start ⟨0, 10, "dawn", 12, 6, 225, 1, 9, 5, 4⟩ ≤ s.start)) :=
  ⟨C7_pick_best_selects_max.2.1 [⟨0, 10, "dawn", 12, 6, 225, 1, 9, 5, 4⟩]
      (by simp),
   C7_pick_best_selects_max.2.2 [⟨0, 10, "dawn", 12, 6, 225, 1, 9, 5, 4⟩]
      ⟨0, 10, "dawn", 12, 6, 225, 1, 9, 5, 4⟩ (by simp [pick_best])⟩

/-- The per-day dedup record held in state.json under a date key. -/
structure DayRecord where
  green : Bool
  amber : Bool
deriving DecidableEq

/-- The Pushover credentials read from the environment (lines 24-25). -/
structure Config where
  pushover_token : String
  pushover_user : String
deriving DecidableEq

/-- send_push (lines 116-155): returns false without contacting the
collaborator when either credential is empty (Python truthiness of the
token/user strings), otherwise returns the collaborator acknowledgment,
modelled by the function ack (true on success, false on request
failure). -/
def send_push (cfg : Config) (ack : Scored → String → Bool) (r : Scored)
    (band : String) : Bool :=
  if cfg.pushover_token = "" ∨ cfg.pushover_user = "" then false
  else ack r band

/-- Reading state dict entries: state.get(day, dict()).get(band, False)
(lines 172-173); an association list models the JSON object. -/
def lookup : List (String × DayRecord) → String → DayRecord
  | [], _ => ⟨false, false⟩
  | (k, r) :: rest, day => if k = day then r else lookup rest day

/-- Writing a band flag: state.setdefault(day, dict())[band] = True
(lines 277 and 281): update the day's record in place, creating it with
both flags clear when absent. -/
def upsert : List (String × DayRecord) → String → (DayRecord → DayRecord) →
    List (String × DayRecord)
  | [], day, f => [(day, f ⟨false, false⟩)]
  | (k, r) :: rest, day, f =>
      if k = day then (k, f r) :: rest else (k, r) :: upsert rest day f

def mark_green (r : DayRecord) : DayRecord := { r with green := true }

def mark_amber (r : DayRecord) : DayRecord := { r with amber := true }

/-- One band's block of the dispatch section (lines 275-278 and 279-282):
if a window was picked and the band is not yet sent today, call send_push;
mark the band sent only when it returns true. Returns the new state,
whether a dispatch was attempted, and whether the state was updated. -/
def gate_step (cfg : Config) (ack : Scored → String → Bool)
    (st : List (String × DayRecord)) (today band : String)
    (mark : DayRecord → DayRecord) (sent : Bool) (pick : Option Scored) :
    List (String × DayRecord) × Bool × Bool :=
  match pick with
  | none => (st, false, false)
  | some r =>
      if sent then (st, false, false)
      else if send_push cfg ack r band then (upsert st today mark, true, true)
      else (st, true, false)

/-- The state-and-dispatch section of main (lines 171-173 and 273-282):
read both sent flags for today from the loaded state, then run the GREEN
block followed by the AMBER block. -/
structure GateResult where
  state : List (String × DayRecord)
  attempted_green : Bool
  attempted_amber : Bool
  updated : Bool

def run_gate (cfg : Config) (ack : Scored → String → Bool)
    (st : List (String × DayRecord)) (today : String)
    (pick_green pick_amber : Option Scored) : GateResult :=
  let sent_green_today := (lookup st today).green
  let sent_amber_today := (lookup st today).amber
  let g := gate_step cfg ack st today "GREEN" mark_green sent_green_today pick_green
  let a := gate_step cfg ack g.1 today "AMBER" mark_amber sent_amber_today pick_amber
  ⟨a.1, g.2.1, a.2.1, g.2.2 || a.2.2⟩

theorem lookup_upsert (st : List (String × DayRecord)) (day : String)
    (f : DayRecord → DayRecord) :
    lookup (upsert st day f) day = f (lookup st day) := by
  induction st with
  | nil => simp [upsert, lookup]
  | cons e rest ih =>
      obtain ⟨k, r⟩ := e
      by_cases hk : k = day
      · simp [upsert, lookup, hk]
      · simp [upsert, lookup, hk, ih]

theorem lookup_upsert_ne (st : List (String × DayRecord)) (day day' : String)
    (f : DayRecord → DayRecord) (h : day' ≠ day) :
    lookup (upsert st day f) day' = lookup st day' := by
  induction st with
  | nil =>
      have hne : ¬(day = day') := fun hc => h hc.symm
      simp [upsert, lookup, hne]
  | cons e rest ih =>
      obtain ⟨k, r⟩ := e
      by_cases hk : k = day
      · subst hk
        have hne : ¬(k = day') := fun hc => h (hc ▸ rfl)
        simp [upsert, lookup, hne]
      · simp [upsert, lookup, hk, ih]

/-- The state coming out of one band's block is either unchanged or the
marked upsert after a successful send. -/
theorem gate_step_state (cfg : Config) (ack : Scored → String → Bool)
    (st : List (String × DayRecord)) (today band : String)
    (mark : DayRecord → DayRecord) (sent : Bool) (pick : Option Scored) :
    (gate_step cfg ack st today band mark sent pick).1 = st ∨
    (∃ r, pick = some r ∧ sent = false ∧ send_push cfg ack r band = true ∧
      (gate_step cfg ack st today band mark sent pick).1 =
        upsert st today mark) := by
  cases pick with
  | none => left; rfl
  | some r =>
      by_cases hs : sent
      · left; simp [gate_step, hs]
      · by_cases hp : send_push cfg ack r band
        · right; exact ⟨r, rfl, by simpa using hs, hp, by simp [gate_step, hs, hp]⟩
        · left; simp [gate_step, hs, hp]

/-- One band's block attempts a dispatch exactly when a window was picked
and the band is not yet sent. -/
theorem gate_step_attempted (cfg : Config) (ack : Scored → String → Bool)
    (st : List (String × DayRecord)) (today band : String)
    (mark : DayRecord → DayRecord) (sent : Bool) (pick : Option Scored) :
    (gate_step cfg ack st today band mark sent pick).2.1 =
      (pick.isSome && !sent) := by
  cases pick with
  | none => rfl
  | some r =>
      by_cases hs : sent
      · simp [gate_step, hs]
      · by_cases hp : send_push cfg ack r band
        · simp [gate_step, hs, hp]
        · simp [gate_step, hs, hp]

theorem send_push_true (cfg : Config) (ack : Scored → String → Bool)
    (r : Scored) (band : String) (h : send_push cfg ack r band = true) :
    ack r band = true := by
  simp only [send_push] at h
  split_ifs at h
  exact h

theorem gate_step_lookup_ne (cfg : Config) (ack : Scored → String → Bool)
    (st : List (String × DayRecord)) (today band : String)
    (mark : DayRecord → DayRecord) (sent : Bool) (pick : Option Scored)
    (day : String) (hday : day ≠ today) :
    lookup (gate_step cfg ack st today band mark sent pick).1 day =
      lookup st day := by
  rcases gate_step_state cfg ack st today band mark sent pick with h | ⟨r, _, _, _, h⟩
  · rw [h]
  · rw [h, lookup_upsert_ne _ _ _ _ hday]

theorem gate_step_mark_amber_green (cfg : Config) (ack : Scored → String → Bool)
    (st : List (String × DayRecord)) (today band : String) (sent : Bool)
    (pick : Option Scored) :
    (lookup (gate_step cfg ack st today band mark_amber sent pick).1 today).green =
      (lookup st today).green := by
  rcases gate_step_state cfg ack st today band mark_amber sent pick with h | ⟨r, _, _, _, h⟩
  · rw [h]
  · rw [h, lookup_upsert]; rfl

theorem gate_step_mark_green_amber (cfg : Config) (ack : Scored → String → Bool)
    (st : List (String × DayRecord)) (today band : String) (sent : Bool)
    (pick : Option Scored) :
    (lookup (gate_step cfg ack st today band mark_green sent pick).1 today).amber =
      (lookup st today).amber := by
  rcases gate_step_state cfg ack st today band mark_green sent pick with h | ⟨r, _, _, _, h⟩
  · rw [h]
  · rw [h, lookup_upsert]; rfl

theorem run_gate_state_eq (cfg : Config) (ack : Scored → String → Bool)
    (st : List (String × DayRecord)) (today : String) (pg pa : Option Scored) :
    (run_gate cfg ack st today pg pa).state =
      (gate_step cfg ack
        (gate_step cfg ack st today "GREEN" mark_green
          (lookup st today).green pg).1
        today "AMBER" mark_amber (lookup st today).amber pa).1 := rfl

theorem run_gate_attempted_green_eq (cfg : Config) (ack : Scored → String → Bool)
    (st : List (String × DayRecord)) (today : String) (pg pa : Option Scored) :
    (run_gate cfg ack st today pg pa).attempted_green =
      (gate_step cfg ack st today "GREEN" mark_green
        (lookup st today).green pg).2.1 := rfl

theorem run_gate_attempted_amber_eq (cfg : Config) (ack : Scored → String → Bool)
    (st : List (String × DayRecord)) (today : String) (pg pa : Option Scored) :
    (run_gate cfg ack st today pg pa).attempted_amber =
      (gate_step cfg ack
        (gate_step cfg ack st today "GREEN" mark_green
          (lookup st today).green pg).1
        today "AMBER" mark_amber (lookup st today).amber pa).2.1 := rfl

/-- Claim C4: a band's flag for the evaluation day changes over the run
only if a window was picked for that band, the band was not yet sent, and
send_push returned true — which requires the collaborator acknowledgment
to be true; missing credentials force send_push to false; entries of
other days are never touched. -/
theorem C4_sent_only_after_ack (cfg : Config) (ack : Scored → String → Bool)
    (st : List (String × DayRecord)) (today : String) (pg pa : Option Scored) :
    ((lookup (run_gate cfg ack st today pg pa).state today).green =
        (lookup st today).green ∨
      ∃ r, pg = some r ∧ (lookup st today).green = false ∧
        send_push cfg ack r "GREEN" = true ∧ ack r "GREEN" = true) ∧
    ((lookup (run_gate cfg ack st today pg pa).state today).amber =
        (lookup st today).amber ∨
      ∃ r, pa = some r ∧ (lookup st today).amber = false ∧
        send_push cfg ack r "AMBER" = true ∧ ack r "AMBER" = true) ∧
    (∀ (r : Scored) (band : String),
      cfg.pushover_token = "" ∨ cfg.pushover_user = "" →
        send_push cfg ack r band = false) ∧
    (∀ day, day ≠ today →
      lookup (run_gate cfg ack st today pg pa).state day = lookup st day) := by
  refine ⟨?_, ?_, ?_, ?_⟩
  · rw [run_gate_state_eq, gate_step_mark_amber_green]
    rcases gate_step_state cfg ack st today "GREEN" mark_green
        (lookup st today).green pg with h | ⟨r, hr, hsent, hsend, h⟩
    · left; rw [h]
    · right; exact ⟨r, hr, hsent, hsend, send_push_true _ _ _ _ hsend⟩
  · rw [run_gate_state_eq]
    rcases gate_step_state cfg ack
        (gate_step cfg ack st today "GREEN" mark_green (lookup st today).green pg).1
        today "AMBER" mark_amber (lookup st today).amber pa with h | ⟨r, hr, hsent, hsend, h⟩
    · left; rw [h, gate_step_mark_green_amber]
    · right; exact ⟨r, hr, hsent, hsend, send_push_true _ _ _ _ hsend⟩
  · intro r band hcred
    cases hcred with
    | inl h => simp [send_push, h]
    | inr h => simp [send_push, h]
  · intro day hday
    rw [run_gate_state_eq, gate_step_lookup_ne _ _ _ _ _ _ _ _ _ hday,
      gate_step_lookup_ne _ _ _ _ _ _ _ _ _ hday]

/-- Claim C4 witness: with empty credentials send_push reports failure,
and the run leaves the entry of a day other than the evaluation day
untouched. -/
theorem C4_sent_only_after_ack_witness :
    send_push ⟨"", "u"⟩ (fun _ _ => true) ⟨0, 10, "dawn", 12, 6, 225, 1, 9, 5, 4⟩
      "GREEN" = false ∧
    lookup (run_gate ⟨"t", "u"⟩ (fun _ _ => true) [] "d" none none).state "e" =
      lookup [] "e" :=
  ⟨(C4_sent_only_after_ack ⟨"", "u"⟩ (fun _ _ => true) [] "d" none none).2.2.1
      ⟨0, 10, "dawn", 12, 6, 225, 1, 9, 5, 4⟩ "GREEN" (Or.inl rfl),
   (C4_sent_only_after_ack ⟨"t", "u"⟩ (fun _ _ => true) [] "d" none none).2.2.2
      "e" (by decide)⟩

/-- Claim C5: a band already marked sent for the evaluation day is never
dispatched again that run, and a band not yet sent with a picked window
always attempts a dispatch. -/
theorem C5_gate_skips_sent_band (cfg : Config) (ack : Scored → String → Bool)
    (st : List (String × DayRecord)) (today : String) (pg pa : Option Scored) :
    ((lookup st today).green = true →
      (run_gate cfg ack st today pg pa).attempted_green = false) ∧
    (∀ r, pg = some r → (lookup st today).green = false →
      (run_gate cfg ack st today pg pa).attempted_green = true) ∧
    ((lookup st today).amber = true →
      (run_gate cfg ack st today pg pa).attempted_amber = false) ∧
    (∀ r, pa = some r → (lookup st today).amber = false →
      (run_gate cfg ack st today pg pa).attempted_amber = true) := by
  refine ⟨fun h => ?_, fun r hr h => ?_, fun h => ?_, fun r hr h => ?_⟩
  · rw [run_gate_attempted_green_eq, gate_step_attempted, h]; simp
  · rw [run_gate_attempted_green_eq, gate_step_attempted, hr, h]; simp
  · rw [run_gate_attempted_amber_eq, gate_step_attempted, h]; simp
  · rw [run_gate_attempted_amber_eq, gate_step_attempted, hr, h]; simp

/-- Claim C5 witness: with state marking green already sent today and
both bands picked, the run skips the GREEN dispatch and attempts the
AMBER one. -/
theorem C5_gate_skips_sent_band_witness :
    (run_gate ⟨"t", "u"⟩ (fun _ _ => true) [("d", ⟨true, false⟩)] "d"
      (some ⟨0, 10, "dawn", 12, 6, 225, 1, 9, 5, 4⟩)
      (some ⟨0, 10, "dawn", 12, 6, 225, 1, 9, 5, 4⟩)).attempted_green = false ∧
    (run_gate ⟨"t", "u"⟩ (fun _ _ => true) [("d", ⟨true, false⟩)] "d"
      (some ⟨0, 10, "dawn", 12, 6, 225, 1, 9, 5, 4⟩)
      (some ⟨0, 10, "dawn", 12, 6, 225, 1, 9, 5, 4⟩)).attempted_amber = true :=
  ⟨(C5_gate_skips_sent_band ⟨"t", "u"⟩ (fun _ _ => true) [("d", ⟨true, false⟩)]
      "d" (some ⟨0, 10, "dawn", 12, 6, 225, 1, 9, 5, 4⟩)
      (some ⟨0, 10, "dawn", 12, 6, 225, 1, 9, 5, 4⟩)).1 rfl,
   (C5_gate_skips_sent_band ⟨"t", "u"⟩ (fun _ _ => true) [("d", ⟨true, false⟩)]
      "d" (some ⟨0, 10, "dawn", 12, 6, 225, 1, 9, 5, 4⟩)
      (some ⟨0, 10, "dawn", 12, 6, 225, 1, 9, 5, 4⟩)).2.2.2
      ⟨0, 10, "dawn", 12, 6, 225, 1, 9, 5, 4⟩ rfl rfl⟩

end FishingAlert
